import Mathlib

/-
  Shallow embedding of the payment-verification backend
  (src/app/nft-purchase-app/backend/app.py and utils.py).

  Python dictionaries with possibly-absent fields are modelled with Option;
  Python list indexing, which wraps around for negative indices and raises
  IndexError when the index is out of range on either side, is modelled by
  pyIndex below; exceptions that the code catches are modelled as the values
  the handlers return, and the one unhandled exception on the success path
  (the NameError at app.py line 193, where the assignment at line 184 wrote
  eMaltMail_html but the use reads email_html) is modelled as a crash outcome,
  which Flask turns into an HTTP 500.
-/

namespace NftApp

/-- Python list indexing semantics: for a list of length n, an index i with
0 <= i < n reads position i, an index i with -n <= i < 0 wraps around and
reads position n + i, and anything else raises IndexError (modelled none). -/
def pyIndex {α : Type} (l : List α) (i : Int) : Option α :=
  if 0 ≤ i then l[i.toNat]?
  else if 0 ≤ (l.length : Int) + i then l[((l.length : Int) + i).toNat]? else none

/-- The position Python reads for index i in a list of length n, given -n <= i. -/
def pyWrap (n : Nat) (i : Int) : Nat :=
  if i < 0 then ((n : Int) + i).toNat else i.toNat

/-- One instruction object of the ledger response, when it is a dictionary:
instruction.get("programIdIndex"), instruction.get("accounts", []),
instruction.get("data", "") in app.py lines 116-119. -/
structure Instruction where
  programIdIndex : Option Int
  accounts : List Int
  data : String
deriving DecidableEq

/-- An entry of the instruction list: app.py line 113 skips entries that are
not dictionaries. -/
inductive InstrItem where
  | notDict
  | instr (ins : Instruction)
deriving DecidableEq

/-- The message object: message.get("accountKeys") (a KeyError when absent,
app.py line 122) and message.get("instructions") (app.py line 107). -/
structure MessageData where
  accountKeys : Option (List String)
  instructions : Option (List InstrItem)
deriving DecidableEq

/-- The transaction body: transaction.get("message"), app.py line 103. -/
structure TxBody where
  message : Option MessageData
deriving DecidableEq

/-- The meta object: meta.get("err"), app.py line 96. -/
structure MetaInfo where
  err : Option String
deriving DecidableEq

/-- The result object of the ledger response: result.get("meta") and
result.get("transaction"), app.py lines 96 and 99. -/
structure TxResult where
  meta : Option MetaInfo
  transaction : Option TxBody
deriving DecidableEq

/-- Outcome of solana_client.get_transaction at app.py line 93: the call can
raise (caught by the outer handler at line 138), or return a response whose
falsy/None cases and missing result key collapse to ok none. -/
inductive LedgerFetch where
  | raises
  | ok (resp : Option TxResult)
deriving DecidableEq

/-- The reason strings returned by verify_transaction, as abstract values:
txFailedOrNotFound is "Transaction failed or not found on Solana" (line 97),
txDataMissing "Transaction data missing" (101), messageMissing "Transaction
message missing" (105), instructionsMissing "Transaction instructions
missing" (109), accountKeyError "Error accessing account keys" (131),
noTransferFound "Invalid transaction: No transfer to the recipient found."
(134), verificationException "Error during verification" (140). -/
inductive Reason where
  | txFailedOrNotFound
  | txDataMissing
  | messageMissing
  | instructionsMissing
  | accountKeyError
  | noTransferFound
  | verificationException
deriving DecidableEq

/-- Resolution of source, destination and mint for a candidate instruction,
app.py lines 122-124: message["accountKeys"] raises KeyError when the key is
absent, and each accounts[k] lookup uses Python indexing (pyIndex); any
failure is the none case, caught at line 129. The getD defaults are never
read because the caller guards len(accounts) >= 3. -/
def resolveTriple (keys : Option (List String)) (ins : Instruction) :
    Option (String × String × String) :=
  match keys with
  | none => none
  | some l =>
    match pyIndex l (ins.accounts.getD 0 0), pyIndex l (ins.accounts.getD 1 0),
        pyIndex l (ins.accounts.getD 2 0) with
    | some src, some dst, some mnt => some (src, dst, mnt)
    | _, _, _ => none

/-- What the loop body of app.py lines 112-131 does with one entry of the
instruction list: skip it (not a dictionary, not the token program, fewer
than 3 accounts, or resolved accounts that do not match), stop with a key
error, or stop with a match (line 126). -/
inductive ItemStep where
  | skip
  | keyErr
  | matched
deriving DecidableEq

def classifyItem (keys : Option (List String))
    (user_public_key craft_token_mint_address admin_key : String) :
    InstrItem → ItemStep
  | .notDict => .skip
  | .instr ins =>
    if ins.programIdIndex = some 2 ∧ 3 ≤ ins.accounts.length then
      match resolveTriple keys ins with
      | none => .keyErr
      | some (src, dst, mnt) =>
        if mnt = craft_token_mint_address ∧ src = user_public_key ∧ dst = admin_key then
          .matched
        else .skip
    else .skip

/-- Outcome of the scan over the instruction list, app.py lines 111-131:
found (break with transfer_instruction_found), keyError (early return at
line 131), or exhausted. -/
inductive ScanOutcome where
  | found
  | keyError
  | exhausted
deriving DecidableEq

def scanInstructions (keys : Option (List String)) (upk mint admin : String) :
    List InstrItem → ScanOutcome
  | [] => .exhausted
  | item :: rest =>
    match classifyItem keys upk mint admin item with
    | .skip => scanInstructions keys upk mint admin rest
    | .keyErr => .keyError
    | .matched => .found

/-- verify_transaction, app.py lines 90-140. The transaction_signature
argument only selects which ledger response is fetched, so the fetch result
is passed directly; amount is accepted and never used, exactly as in the
source; the Python body compares the destination against the module global
ADMIN_WALLET_PUBLIC_KEY, whose value at the sole call site (line 166) is the
value passed for the final parameter, so the embedding reads that parameter.
Falsy checks: an absent or falsy response or a missing result key is ok none;
an empty instruction list is falsy at line 108 and is reported as missing. -/
def verify_transaction (fetched : LedgerFetch)
    (transaction_signature user_public_key : String) (amount : ℚ)
    (craft_token_mint_address admin_wallet_public_key : String) :
    Bool × Option Reason :=
  match fetched with
  | .raises => (false, some .verificationException)
  | .ok none => (false, some .txFailedOrNotFound)
  | .ok (some result) =>
    match result.meta with
    | none => (false, some .txFailedOrNotFound)
    | some m =>
      if m.err.isSome then (false, some .txFailedOrNotFound)
      else
        match result.transaction with
        | none => (false, some .txDataMissing)
        | some body =>
          match body.message with
          | none => (false, some .messageMissing)
          | some msg =>
            match msg.instructions with
            | none => (false, some .instructionsMissing)
            | some instrs =>
              if instrs = [] then (false, some .instructionsMissing)
              else
                match scanInstructions msg.accountKeys user_public_key
                    craft_token_mint_address admin_wallet_public_key instrs with
                | .found => (true, none)
                | .keyError => (false, some .accountKeyError)
                | .exhausted => (false, some .noTransferFound)

/-- The amount field of the request body: a JSON number, a string that
float() parses (carrying the parsed value), or a string float() rejects with
ValueError (app.py lines 158-161). -/
inductive AmountField where
  | num (q : ℚ)
  | strOk (q : ℚ)
  | strBad (s : String)
deriving DecidableEq

/-- The four fields read from the request JSON, app.py lines 150-153;
data.get returns none when the key is absent. -/
structure RequestData where
  transactionSignature : Option String
  userPublicKey : Option String
  amount : Option AmountField
  craftTokenMintAddress : Option String
deriving DecidableEq

/-- Python truthiness of an optional string: None and the empty string are
falsy in the all([...]) check at app.py line 155. -/
def truthyStr : Option String → Bool
  | none => false
  | some s => s != ""

/-- Python truthiness of the amount field: None, the number 0 and the empty
string are falsy. A numeric string such as "0" is truthy (nonempty). -/
def truthyAmount : Option AmountField → Bool
  | none => false
  | some (.num q) => q != 0
  | some (.strOk _) => true
  | some (.strBad s) => s != ""

/-- The all([transaction_signature, user_public_key, amount,
craft_token_mint_address]) check at app.py line 155. -/
def truthyReq (d : RequestData) : Bool :=
  truthyStr d.transactionSignature && truthyStr d.userPublicKey &&
    truthyAmount d.amount && truthyStr d.craftTokenMintAddress

/-- float(amount) at app.py line 159: numbers and parseable strings convert,
a non-parseable string raises ValueError (none), caught at line 160. -/
def parseAmount : Option AmountField → Option ℚ
  | some (.num q) => some q
  | some (.strOk q) => some q
  | _ => none

/-- The metadata dictionary generate_nft returns (utils.py lines 64-88):
nft_id and image are always present, metadata_url only when the metadata
upload to IPFS succeeded. -/
structure NftData where
  nft_id : String
  metadata_url : Option String
  image : String
deriving DecidableEq

/-- A row of the NFT table, app.py lines 76-79. -/
structure NFTRow where
  nft_id : String
  metadata_url : String
  owner_public_key : String
deriving DecidableEq

/-- A row of the TransactionHistory table, app.py lines 65-70 (the
autoincrement id and the timestamp are not observed by any claim). -/
structure TxRow where
  transaction_id : String
  user_public_key : String
  nft_id : String
deriving DecidableEq

/-- The datastore: the two tables. -/
structure DbState where
  nfts : List NFTRow
  txs : List TxRow
deriving DecidableEq

/-- Whether the commit at app.py line 179 succeeds: the NFT primary key
nft_id and the unique column TransactionHistory.transaction_id must not
collide with existing rows; on violation the commit raises, the handler at
line 180 rolls back, and neither row is retained. -/
def commitOk (st : DbState) (nft : NFTRow) (txr : TxRow) : Bool :=
  st.nfts.all (fun r => r.nft_id != nft.nft_id) &&
    st.txs.all (fun r => r.transaction_id != txr.transaction_id)

/-- The rows of TransactionHistory holding a given transaction reference. -/
def txRecordsFor (st : DbState) (ref : String) : List TxRow :=
  st.txs.filter (fun r => r.transaction_id == ref)

/-- Server-side configuration read at app.py lines 41-62: whether the admin
keypair loaded (line 163 checks it) and the ADMIN_WALLET_PUBLIC_KEY value. -/
structure Config where
  adminKeypairLoaded : Bool
  adminWalletPublicKey : String
deriving DecidableEq

/-- Results of the external collaborators for one request: the ledger fetch
for the submitted signature, the generate_nft outcome (none models a falsy
return, app.py line 170), and whether send_email would report success. -/
structure Externals where
  fetched : LedgerFetch
  nftGen : Option NftData
  emailSendOk : Bool
deriving DecidableEq

/-- The distinguishable response bodies of the verify_payment route. -/
inductive BodyKind where
  | invalidJson
  | missingParams
  | invalidAmountFormat
  | adminNotConfigured
  | paymentRejected (r : Option Reason)
  | nftGenFailed
  | dbError
  | success
deriving DecidableEq

/-- What the route call produces: an HTTP response, or an unhandled Python
exception escaping the handler (Flask then answers HTTP 500). -/
inductive RouteOutcome where
  | response (status : Nat) (body : BodyKind)
  | crash (pythonError : String)
deriving DecidableEq

/-- The HTTP status the caller observes: Flask maps an unhandled exception
to 500 Internal Server Error. -/
def statusOf : RouteOutcome → Nat
  | .response s _ => s
  | .crash _ => 500

/-- send_email, utils.py lines 90-127: returns False when credentials are
not configured, otherwise the SMTP outcome; every exception of the send is
caught (lines 118-127), so the function always returns a Bool. -/
def send_email (emailConfigured smtpDeliveryOk : Bool) : Bool :=
  if emailConfigured then smtpDeliveryOk else false

/-- The verify_payment route, app.py lines 144-197, as a function of the
configuration, the external outcomes, the datastore state and the parsed
request body (none models a falsy get_json result, line 147). On the path
where verification succeeded, the NFT was generated and the commit went
through, the next statement executed is the email block, and line 193 reads
the undefined name email_html (the assignment at line 184 spelled it
eMaltMail_html), so the handler raises NameError and the success response at
line 195 is never reached; the rows committed at line 179 remain persisted. -/
def verify_payment (cfg : Config) (ext : Externals) (st : DbState)
    (data : Option RequestData) : DbState × RouteOutcome :=
  match data with
  | none => (st, .response 400 .invalidJson)
  | some d =>
    if truthyReq d then
      match parseAmount d.amount with
      | none => (st, .response 400 .invalidAmountFormat)
      | some amt =>
        if cfg.adminKeypairLoaded then
          match verify_transaction ext.fetched (d.transactionSignature.getD "")
              (d.userPublicKey.getD "") amt (d.craftTokenMintAddress.getD "")
              cfg.adminWalletPublicKey with
          | (true, _) =>
            match ext.nftGen with
            | none => (st, .response 500 .nftGenFailed)
            | some nd =>
              let nft : NFTRow :=
                ⟨nd.nft_id, nd.metadata_url.getD "", d.userPublicKey.getD ""⟩
              let txr : TxRow :=
                ⟨d.transactionSignature.getD "", d.userPublicKey.getD "", nd.nft_id⟩
              if commitOk st nft txr then
                ({ nfts := st.nfts ++ [nft], txs := st.txs ++ [txr] },
                  .crash "NameError")
              else (st, .response 500 .dbError)
          | (false, errMsg) => (st, .response 400 (.paymentRejected errMsg))
        else (st, .response 500 .adminNotConfigured)
    else (st, .response 400 .missingParams)

/-! Concrete inputs used to evaluate the definitions: the §8 example of the
specification (claim = sig123 / Alice / amount 5 / MintX, recipient
Treasury) and variations of it. -/

def exKeys : List String := ["Alice", "Treasury", "MintX"]

def exInstr : Instruction :=
  { programIdIndex := some 2, accounts := [0, 1, 2], data := "" }

def exMsg : MessageData :=
  { accountKeys := some exKeys, instructions := some [.instr exInstr] }

def exResult : TxResult :=
  { meta := some { err := none }, transaction := some { message := some exMsg } }

def exFetch : LedgerFetch := .ok (some exResult)

/-- Same response with the execution error field set. -/
def exResultErr : TxResult :=
  { meta := some { err := some "boom" }, transaction := some { message := some exMsg } }

/-- A single matching instruction addressed through negative indices:
-3, -2, -1 wrap to positions 0, 1, 2 of the three account keys. -/
def exInstrNeg : Instruction :=
  { programIdIndex := some 2, accounts := [-3, -2, -1], data := "" }

def exMsgNeg : MessageData :=
  { accountKeys := some exKeys, instructions := some [.instr exInstrNeg] }

def exResultNeg : TxResult :=
  { meta := some { err := none }, transaction := some { message := some exMsgNeg } }

/-- A candidate instruction whose third account index 5 is out of range for
the three account keys, followed by a matching instruction that the scan
never reaches. -/
def exInstrOob : Instruction :=
  { programIdIndex := some 2, accounts := [0, 1, 5], data := "" }

def exMsgOob : MessageData :=
  { accountKeys := some exKeys, instructions := some [.instr exInstrOob, .instr exInstr] }

def exResultOob : TxResult :=
  { meta := some { err := none }, transaction := some { message := some exMsgOob } }

/-- A list with no matching instruction: a non-dictionary entry and an
instruction of a different program. -/
def exInstrWrongProg : Instruction :=
  { programIdIndex := some 0, accounts := [0, 1, 2], data := "" }

def exMsgNoMatch : MessageData :=
  { accountKeys := some exKeys, instructions := some [.notDict, .instr exInstrWrongProg] }

def exResultNoMatch : TxResult :=
  { meta := some { err := none }, transaction := some { message := some exMsgNoMatch } }

def exReq : RequestData :=
  { transactionSignature := some "sig123", userPublicKey := some "Alice",
    amount := some (.num 5), craftTokenMintAddress := some "MintX" }

/-- The same request with a negative amount: a number, but not positive. -/
def exReqNeg : RequestData := { exReq with amount := some (.num (-5)) }

/-- The same request with the signature field absent. -/
def exReqMissing : RequestData := { exReq with transactionSignature := none }

def exCfg : Config := { adminKeypairLoaded := true, adminWalletPublicKey := "Treasury" }

def exNft1 : NftData := { nft_id := "nft-1", metadata_url := some "url-1", image := "img-1" }

def exNft2 : NftData := { nft_id := "nft-2", metadata_url := some "url-2", image := "img-2" }

def exExt1 : Externals := { fetched := exFetch, nftGen := some exNft1, emailSendOk := true }

def exExt2 : Externals := { fetched := exFetch, nftGen := some exNft2, emailSendOk := true }

/-- Externals where artifact generation fails. -/
def exExtNoGen : Externals := { fetched := exFetch, nftGen := none, emailSendOk := true }

def emptyDb : DbState := { nfts := [], txs := [] }

/-- The datastore after a first call of the route on the example request. -/
def exState1 : DbState := (verify_payment exCfg exExt1 emptyDb (some exReq)).1

/-! Helper lemmas about the scan and the indexing. -/

lemma scan_cons (keys : Option (List String)) (upk mint admin : String)
    (item : InstrItem) (rest : List InstrItem) :
    scanInstructions keys upk mint admin (item :: rest) =
      match classifyItem keys upk mint admin item with
      | .skip => scanInstructions keys upk mint admin rest
      | .keyErr => .keyError
      | .matched => .found := rfl

lemma scan_found (keys : Option (List String)) (upk mint admin : String) :
    ∀ (l : List InstrItem) (i : Nat) (hi : i < l.length),
      classifyItem keys upk mint admin l[i] = .matched →
      (∀ j (hj : j < i), classifyItem keys upk mint admin l[j] ≠ .keyErr) →
      scanInstructions keys upk mint admin l = .found := by
  intro l
  induction l with
  | nil => intro i hi; exact absurd hi (by simp)
  | cons a rest ih =>
    intro i hi hm hprev
    rw [scan_cons]
    cases hca : classifyItem keys upk mint admin a with
    | matched => rfl
    | keyErr =>
      cases i with
      | zero => rw [List.getElem_cons_zero] at hm; rw [hca] at hm; exact absurd hm (by simp)
      | succ n =>
        exact absurd hca (by simpa using hprev 0 (Nat.succ_pos n))
    | skip =>
      cases i with
      | zero => rw [List.getElem_cons_zero] at hm; rw [hca] at hm; exact absurd hm (by simp)
      | succ n =>
        have hn : n < rest.length := by simpa using hi
        exact ih n hn (by simpa using hm)
          (fun j hj => by simpa using hprev (j + 1) (by omega))

lemma scan_keyerr (keys : Option (List String)) (upk mint admin : String) :
    ∀ (l : List InstrItem) (i : Nat) (hi : i < l.length),
      classifyItem keys upk mint admin l[i] = .keyErr →
      (∀ j (hj : j < i), classifyItem keys upk mint admin l[j] = .skip) →
      scanInstructions keys upk mint admin l = .keyError := by
  intro l
  induction l with
  | nil => intro i hi; exact absurd hi (by simp)
  | cons a rest ih =>
    intro i hi hm hprev
    rw [scan_cons]
    cases i with
    | zero =>
      rw [List.getElem_cons_zero] at hm
      rw [hm]
    | succ n =>
      have ha : classifyItem keys upk mint admin a = .skip := by
        simpa using hprev 0 (Nat.succ_pos n)
      rw [ha]
      have hn : n < rest.length := by simpa using hi
      exact ih n hn (by simpa using hm)
        (fun j hj => by simpa using hprev (j + 1) (by omega))

lemma scan_exhausted (keys : Option (List String)) (upk mint admin : String) :
    ∀ (l : List InstrItem),
      (∀ i (hi : i < l.length), classifyItem keys upk mint admin l[i] = .skip) →
      scanInstructions keys upk mint admin l = .exhausted := by
  intro l
  induction l with
  | nil => intro _; rfl
  | cons a rest ih =>
    intro hall
    rw [scan_cons]
    have ha : classifyItem keys upk mint admin a = .skip := by
      simpa using hall 0 (Nat.succ_pos rest.length)
    rw [ha]
    exact ih (fun i hi => by
      simpa using hall (i + 1) (by simp only [List.length_cons]; omega))

lemma pyIndex_eq_wrap {α : Type} (l : List α) (i : Int)
    (hlo : -(l.length : Int) ≤ i) :
    pyIndex l i = l[pyWrap l.length i]? := by
  unfold pyIndex pyWrap
  by_cases h : 0 ≤ i
  · rw [if_pos h, if_neg (by omega)]
  · rw [if_neg h, if_pos (by omega), if_pos (by omega)]

/-- Unfolding of verify_transaction for a response that passes the checks at
app.py lines 96-109: the output is determined by the scan over the
instruction list. -/
lemma verify_transaction_ok_scan
    (result : TxResult) (m : MetaInfo) (body : TxBody) (msg : MessageData)
    (instrs : List InstrItem)
    (hm : result.meta = some m) (he : m.err = none)
    (ht : result.transaction = some body) (hmsg : body.message = some msg)
    (hin : msg.instructions = some instrs) (hne : instrs ≠ [])
    (sig upk : String) (amt : ℚ) (mint admin : String) :
    verify_transaction (.ok (some result)) sig upk amt mint admin =
      (match scanInstructions msg.accountKeys upk mint admin instrs with
       | .found => (true, none)
       | .keyError => (false, some .accountKeyError)
       | .exhausted => (false, some .noTransferFound)) := by
  simp only [verify_transaction, hm, he, ht, hmsg, hin, Option.isSome_none,
    Bool.false_eq_true, if_false, if_neg hne]

/-- Unfolding of verify_payment for a request that passes validation, with
the admin keypair loaded and a Valid verification: the outcome is determined
by NFT generation and the commit. -/
lemma verify_payment_valid_path
    (cfg : Config) (ext : Externals) (st : DbState) (d : RequestData) (amt : ℚ)
    (h1 : truthyReq d = true) (h2 : parseAmount d.amount = some amt)
    (h3 : cfg.adminKeypairLoaded = true)
    (h4 : verify_transaction ext.fetched (d.transactionSignature.getD "")
        (d.userPublicKey.getD "") amt (d.craftTokenMintAddress.getD "")
        cfg.adminWalletPublicKey = (true, none)) :
    verify_payment cfg ext st (some d) =
      (match ext.nftGen with
       | none => (st, .response 500 .nftGenFailed)
       | some nd =>
         if commitOk st ⟨nd.nft_id, nd.metadata_url.getD "", d.userPublicKey.getD ""⟩
             ⟨d.transactionSignature.getD "", d.userPublicKey.getD "", nd.nft_id⟩ then
           ({ nfts := st.nfts ++
                [⟨nd.nft_id, nd.metadata_url.getD "", d.userPublicKey.getD ""⟩],
              txs := st.txs ++
                [⟨d.transactionSignature.getD "", d.userPublicKey.getD "", nd.nft_id⟩] },
             .crash "NameError")
         else (st, .response 500 .dbError)) := by
  simp only [verify_payment, h1, h2, h3, h4, if_true]

/-! Claim theorems. -/

/-- C1: For every ledger response that passes the fetch and shape checks
(found, no execution error, transaction body, message and nonempty
instruction list present) and whose instruction list holds, at some
position, a candidate instruction (token-program index 2, at least three
account indices) whose resolved source, destination and mint accounts equal
the claim payerAccount, the configured recipientAccount and the claim
tokenMintAccount, with no earlier candidate aborting the scan through an
index error, verify_transaction returns Valid, that is (true, none). -/
theorem c1_matching_instruction_valid
    (result : TxResult) (m : MetaInfo) (body : TxBody) (msg : MessageData)
    (instrs : List InstrItem) (ins : Instruction) (i : Nat)
    (sig upk : String) (amt : ℚ) (mint admin : String)
    (hm : result.meta = some m) (he : m.err = none)
    (ht : result.transaction = some body) (hmsg : body.message = some msg)
    (hin : msg.instructions = some instrs)
    (hi : i < instrs.length) (hget : instrs[i] = .instr ins)
    (hpid : ins.programIdIndex = some 2) (hlen : 3 ≤ ins.accounts.length)
    (hres : resolveTriple msg.accountKeys ins = some (upk, admin, mint))
    (hprev : ∀ j (hj : j < i),
      classifyItem msg.accountKeys upk mint admin instrs[j] ≠ .keyErr) :
    verify_transaction (.ok (some result)) sig upk amt mint admin = (true, none) := by
  have hclass : classifyItem msg.accountKeys upk mint admin instrs[i] = .matched := by
    rw [hget]
    simp only [classifyItem]
    rw [if_pos ⟨hpid, hlen⟩, hres]
    simp
  have hne : instrs ≠ [] := by
    intro h0
    rw [h0] at hi
    exact absurd hi (by simp)
  rw [verify_transaction_ok_scan result m body msg instrs hm he ht hmsg hin hne,
    scan_found msg.accountKeys upk mint admin instrs i hi hclass hprev]

/-- C1 witness: the §8 example response holds a matching instruction at
position 0 and verification returns Valid. -/
theorem c1_witness :
    verify_transaction (.ok (some exResult)) "sig123" "Alice" 5 "MintX" "Treasury" =
      (true, none) :=
  c1_matching_instruction_valid exResult { err := none }
    { message := some exMsg } exMsg [.instr exInstr] exInstr 0
    "sig123" "Alice" 5 "MintX" "Treasury"
    rfl rfl rfl rfl rfl (by decide) rfl rfl (by decide) (by decide)
    (fun j hj => absurd hj (Nat.not_lt_zero j))

/-- C2: For every ledger response whose execution error field is present,
verify_transaction returns Invalid with the not-found-or-failed reason,
regardless of the content of the instruction list. -/
theorem c2_execution_error_invalid
    (result : TxResult) (m : MetaInfo) (e : String)
    (hm : result.meta = some m) (he : m.err = some e)
    (sig upk : String) (amt : ℚ) (mint admin : String) :
    verify_transaction (.ok (some result)) sig upk amt mint admin =
      (false, some .txFailedOrNotFound) := by
  simp [verify_transaction, hm, he]

/-- C2 witness: the example response with err set, even though its
instruction list holds a matching instruction, is Invalid. -/
theorem c2_witness :
    verify_transaction (.ok (some exResultErr)) "sig123" "Alice" 5 "MintX" "Treasury" =
      (false, some .txFailedOrNotFound) :=
  c2_execution_error_invalid exResultErr { err := some "boom" } "boom" rfl rfl
    "sig123" "Alice" 5 "MintX" "Treasury"

/-- C3: verify_transaction is a total function into Bool paired with an
optional reason (the embedding is a plain Lean function, mirroring the
try/except boundary of app.py lines 92-140 that converts every fault into a
returned value), and a candidate instruction whose first three account
indices do not all resolve within the account-key table makes it return
Invalid with the account-key-error reason at once: the conclusion holds for
every continuation of the instruction list after position i, so the scan
does not continue past the faulty candidate. -/
theorem c3_out_of_range_fails_immediately
    (result : TxResult) (m : MetaInfo) (body : TxBody) (msg : MessageData)
    (keys : List String) (instrs : List InstrItem) (ins : Instruction) (i : Nat)
    (sig upk : String) (amt : ℚ) (mint admin : String)
    (hm : result.meta = some m) (he : m.err = none)
    (ht : result.transaction = some body) (hmsg : body.message = some msg)
    (hkeys : msg.accountKeys = some keys)
    (hin : msg.instructions = some instrs)
    (hi : i < instrs.length) (hget : instrs[i] = .instr ins)
    (hpid : ins.programIdIndex = some 2) (hlen : 3 ≤ ins.accounts.length)
    (hoob : pyIndex keys (ins.accounts.getD 0 0) = none ∨
        pyIndex keys (ins.accounts.getD 1 0) = none ∨
        pyIndex keys (ins.accounts.getD 2 0) = none)
    (hprev : ∀ j (hj : j < i),
      classifyItem msg.accountKeys upk mint admin instrs[j] = .skip) :
    verify_transaction (.ok (some result)) sig upk amt mint admin =
      (false, some .accountKeyError) := by
  have hres : resolveTriple msg.accountKeys ins = none := by
    rw [hkeys]
    simp only [resolveTriple]
    cases hp0 : pyIndex keys (ins.accounts.getD 0 0) with
    | none => rfl
    | some s0 =>
      cases hp1 : pyIndex keys (ins.accounts.getD 1 0) with
      | none => rfl
      | some s1 =>
        cases hp2 : pyIndex keys (ins.accounts.getD 2 0) with
        | none => rfl
        | some s2 =>
          rcases hoob with h | h | h
          · rw [hp0] at h; exact absurd h (by simp)
          · rw [hp1] at h; exact absurd h (by simp)
          · rw [hp2] at h; exact absurd h (by simp)
  have hclass : classifyItem msg.accountKeys upk mint admin instrs[i] = .keyErr := by
    rw [hget]
    simp only [classifyItem]
    rw [if_pos ⟨hpid, hlen⟩, hres]
  have hne : instrs ≠ [] := by
    intro h0
    rw [h0] at hi
    exact absurd hi (by simp)
  rw [verify_transaction_ok_scan result m body msg instrs hm he ht hmsg hin hne,
    scan_keyerr msg.accountKeys upk mint admin instrs i hi hclass hprev]

/-- C3 witness: the first candidate refers to account index 5 with only
three account keys; the matching instruction sitting after it is never
reached and the result is the account-key-error Invalid. -/
theorem c3_witness :
    verify_transaction (.ok (some exResultOob)) "sig123" "Alice" 5 "MintX" "Treasury" =
      (false, some .accountKeyError) :=
  c3_out_of_range_fails_immediately exResultOob { err := none }
    { message := some exMsgOob } exMsgOob
    exKeys [.instr exInstrOob, .instr exInstr] exInstrOob 0
    "sig123" "Alice" 5 "MintX" "Treasury"
    rfl rfl rfl rfl rfl rfl (by decide) rfl rfl (by decide)
    (Or.inr (Or.inr (by decide)))
    (fun j hj => absurd hj (Nat.not_lt_zero j))

/-- C4: For every found ledger response without execution error, with
transaction body, message and a present, nonempty (hence truthy)
instruction list in which every entry is skipped by the scan (not a
dictionary, not the token program, fewer than three accounts, or resolved
accounts that do not match the claim), verify_transaction exhausts the list
and returns Invalid with the no-transfer-found reason. -/
theorem c4_no_match_exhausts_list
    (result : TxResult) (m : MetaInfo) (body : TxBody) (msg : MessageData)
    (instrs : List InstrItem)
    (sig upk : String) (amt : ℚ) (mint admin : String)
    (hm : result.meta = some m) (he : m.err = none)
    (ht : result.transaction = some body) (hmsg : body.message = some msg)
    (hin : msg.instructions = some instrs) (hne : instrs ≠ [])
    (hall : ∀ j (hj : j < instrs.length),
      classifyItem msg.accountKeys upk mint admin instrs[j] = .skip) :
    verify_transaction (.ok (some result)) sig upk amt mint admin =
      (false, some .noTransferFound) := by
  rw [verify_transaction_ok_scan result m body msg instrs hm he ht hmsg hin hne,
    scan_exhausted msg.accountKeys upk mint admin instrs hall]

/-- C4 witness: a list holding a non-dictionary entry and an instruction of
a different program has no match; the whole list is scanned and the result
is the no-transfer-found Invalid. -/
theorem c4_witness :
    verify_transaction (.ok (some exResultNoMatch)) "sig123" "Alice" 5 "MintX" "Treasury" =
      (false, some .noTransferFound) :=
  c4_no_match_exhausts_list exResultNoMatch { err := none }
    { message := some exMsgNoMatch } exMsgNoMatch
    [.notDict, .instr exInstrWrongProg]
    "sig123" "Alice" 5 "MintX" "Treasury"
    rfl rfl rfl rfl rfl (by decide)
    (by decide)

/-- C9: Two calls of verify_transaction that observe the same ledger fetch
and agree on every argument except the amount produce the same result: the
amount argument is accepted and never read. -/
theorem c9_amount_never_influences_result (fetched : LedgerFetch)
    (sig upk : String) (a1 a2 : ℚ) (mint admin : String) :
    verify_transaction fetched sig upk a1 mint admin =
      verify_transaction fetched sig upk a2 mint admin := rfl

/-- C10: A candidate instruction whose first three account indices include
a negative integer of magnitude at most the length of the account-key table
is resolved by wrap-around indexing from the end of the table (pyWrap), not
treated as out of range; when the wrapped resolution matches the claim, the
transaction verifies Valid. -/
theorem c10_negative_index_wraps
    (result : TxResult) (m : MetaInfo) (body : TxBody) (msg : MessageData)
    (keys : List String) (ins : Instruction) (i0 i1 i2 : Int) (rest : List Int)
    (sig upk : String) (amt : ℚ) (mint admin : String)
    (hm : result.meta = some m) (he : m.err = none)
    (ht : result.transaction = some body) (hmsg : body.message = some msg)
    (hkeys : msg.accountKeys = some keys)
    (hin : msg.instructions = some [.instr ins])
    (hpid : ins.programIdIndex = some 2)
    (hacc : ins.accounts = i0 :: i1 :: i2 :: rest)
    (h0 : -(keys.length : Int) ≤ i0) (h1 : -(keys.length : Int) ≤ i1)
    (h2 : -(keys.length : Int) ≤ i2)
    (hneg : i0 < 0 ∨ i1 < 0 ∨ i2 < 0)
    (hsrc : keys[pyWrap keys.length i0]? = some upk)
    (hdst : keys[pyWrap keys.length i1]? = some admin)
    (hmnt : keys[pyWrap keys.length i2]? = some mint) :
    verify_transaction (.ok (some result)) sig upk amt mint admin = (true, none) := by
  have hres : resolveTriple msg.accountKeys ins = some (upk, admin, mint) := by
    rw [hkeys]
    simp only [resolveTriple, hacc]
    have g0 : (i0 :: i1 :: i2 :: rest).getD 0 0 = i0 := rfl
    have g1 : (i0 :: i1 :: i2 :: rest).getD 1 0 = i1 := rfl
    have g2 : (i0 :: i1 :: i2 :: rest).getD 2 0 = i2 := rfl
    rw [g0, g1, g2, pyIndex_eq_wrap keys i0 h0, pyIndex_eq_wrap keys i1 h1,
      pyIndex_eq_wrap keys i2 h2, hsrc, hdst, hmnt]
  have hlen : 3 ≤ ins.accounts.length := by
    rw [hacc]
    simp
  have hclass : classifyItem msg.accountKeys upk mint admin (.instr ins) = .matched := by
    simp only [classifyItem]
    rw [if_pos ⟨hpid, hlen⟩, hres]
    simp
  have hne : ([InstrItem.instr ins] : List InstrItem) ≠ [] := by simp
  rw [verify_transaction_ok_scan result m body msg [.instr ins] hm he ht hmsg hin hne,
    scan_cons, hclass]

/-- C10 witness: account indices -3, -2, -1 over the three account keys wrap
to positions 0, 1, 2, the resolved accounts match, and the result is Valid. -/
theorem c10_witness :
    verify_transaction (.ok (some exResultNeg)) "sig123" "Alice" 5 "MintX" "Treasury" =
      (true, none) :=
  c10_negative_index_wraps exResultNeg { err := none }
    { message := some exMsgNeg } exMsgNeg
    exKeys exInstrNeg (-3) (-2) (-1) []
    "sig123" "Alice" 5 "MintX" "Treasury"
    rfl rfl rfl rfl rfl rfl rfl rfl
    (by decide) (by decide) (by decide)
    (Or.inl (by decide))
    (by decide) (by decide) (by decide)

/-- C5 counterexample: running the route twice on the same request (the
first call persists the NFT row and the purchase row before crashing in the
email block), the second call does not answer with a 4xx client error: it
answers HTTP 500 with the generic database-error body produced by the
rollback handler at app.py lines 180-182. One purchase row persists. -/
theorem c5_counterexample :
    (verify_payment exCfg exExt2 exState1 (some exReq)).2 =
      .response 500 .dbError ∧
    ¬ statusOf (verify_payment exCfg exExt2 exState1 (some exReq)).2 < 500 ∧
    (txRecordsFor (verify_payment exCfg exExt2 exState1 (some exReq)).1
      "sig123").length = 1 := by
  decide

/-- C5 (amended): when the route is called again with a transactionReference
for which exactly one purchase row is already stored, and the call reaches
the persistence step (validation passes, the admin keypair is loaded,
verification is Valid and an artifact is generated), the commit violates the
uniqueness of transaction_id, the handler rolls back and answers HTTP 500
with the database-error body (not a 4xx DuplicateSubmission); the datastore
is unchanged, so exactly one purchase row for that reference persists and
the artifact of the second attempt is not linked to any record. -/
theorem c5_duplicate_reference_rolls_back
    (cfg : Config) (ext : Externals) (st : DbState) (d : RequestData)
    (amt : ℚ) (nd : NftData)
    (h1 : truthyReq d = true) (h2 : parseAmount d.amount = some amt)
    (h3 : cfg.adminKeypairLoaded = true)
    (h4 : verify_transaction ext.fetched (d.transactionSignature.getD "")
        (d.userPublicKey.getD "") amt (d.craftTokenMintAddress.getD "")
        cfg.adminWalletPublicKey = (true, none))
    (h5 : ext.nftGen = some nd)
    (h6 : (txRecordsFor st (d.transactionSignature.getD "")).length = 1) :
    verify_payment cfg ext st (some d) = (st, .response 500 .dbError) ∧
    (txRecordsFor (verify_payment cfg ext st (some d)).1
        (d.transactionSignature.getD "")).length = 1 := by
  have hex : ∃ r ∈ st.txs, r.transaction_id = d.transactionSignature.getD "" := by
    have hnil : txRecordsFor st (d.transactionSignature.getD "") ≠ [] := by
      intro h0
      rw [h0] at h6
      exact absurd h6 (by simp)
    obtain ⟨r, hr⟩ := List.exists_mem_of_ne_nil _ hnil
    have hmem := List.mem_filter.mp hr
    exact ⟨r, hmem.1, by simpa using hmem.2⟩
  obtain ⟨r, hrmem, hrid⟩ := hex
  have hcf : commitOk st ⟨nd.nft_id, nd.metadata_url.getD "", d.userPublicKey.getD ""⟩
      ⟨d.transactionSignature.getD "", d.userPublicKey.getD "", nd.nft_id⟩ = false := by
    apply Bool.eq_false_iff.mpr
    intro htrue
    unfold commitOk at htrue
    rw [Bool.and_eq_true] at htrue
    have hall := List.all_eq_true.mp htrue.2 r hrmem
    simp only [bne_iff_ne] at hall
    exact hall hrid
  have hmain : verify_payment cfg ext st (some d) = (st, .response 500 .dbError) := by
    rw [verify_payment_valid_path cfg ext st d amt h1 h2 h3 h4, h5]
    simp [hcf]
  exact ⟨hmain, by rw [hmain]; exact h6⟩

/-- C5 witness: the two-call example; the second call on the state left by
the first answers 500 database-error and the single purchase row remains. -/
theorem c5_witness :
    verify_payment exCfg exExt2 exState1 (some exReq) =
      (exState1, .response 500 .dbError) ∧
    (txRecordsFor (verify_payment exCfg exExt2 exState1 (some exReq)).1
        (exReq.transactionSignature.getD "")).length = 1 :=
  c5_duplicate_reference_rolls_back exCfg exExt2 exState1 exReq 5 exNft2
    (by decide) (by decide) rfl (by decide) rfl (by decide)

/-- C6 (code bug): on the fully successful path (request valid, admin
keypair loaded, verification Valid, artifact generated, commit succeeded)
the handler next executes the email block and line 193 of app.py reads the
undefined name email_html (the assignment at line 184 wrote eMaltMail_html),
so a NameError escapes the handler and the caller receives HTTP 500 instead
of the success response at line 195 — while the NFT row and the purchase
row, already committed at line 179, persist. The claim is right about the
records and wrong only because of this slip: the success response is never
returned. -/
theorem c6_email_step_crashes_after_commit :
    (verify_payment exCfg exExt1 emptyDb (some exReq)).2 = .crash "NameError" ∧
    statusOf (verify_payment exCfg exExt1 emptyDb (some exReq)).2 = 500 ∧
    (verify_payment exCfg exExt1 emptyDb (some exReq)).1 =
      { nfts := [⟨"nft-1", "url-1", "Alice"⟩],
        txs := [⟨"sig123", "Alice", "nft-1"⟩] } := by
  decide

/-- C7: when the request passes validation, the admin keypair is loaded,
verification is Valid and generate_nft fails (falsy return, app.py line
170), the route answers HTTP 500 with the generation-failed body before any
insert: the datastore is unchanged, and re-querying the purchase rows for
the transactionReference finds nothing when nothing was stored before. -/
theorem c7_generation_failure_no_persistence
    (cfg : Config) (ext : Externals) (st : DbState) (d : RequestData) (amt : ℚ)
    (h1 : truthyReq d = true) (h2 : parseAmount d.amount = some amt)
    (h3 : cfg.adminKeypairLoaded = true)
    (h4 : verify_transaction ext.fetched (d.transactionSignature.getD "")
        (d.userPublicKey.getD "") amt (d.craftTokenMintAddress.getD "")
        cfg.adminWalletPublicKey = (true, none))
    (h5 : ext.nftGen = none) :
    verify_payment cfg ext st (some d) = (st, .response 500 .nftGenFailed) ∧
    (txRecordsFor st (d.transactionSignature.getD "") = [] →
      txRecordsFor (verify_payment cfg ext st (some d)).1
        (d.transactionSignature.getD "") = []) := by
  have hmain : verify_payment cfg ext st (some d) = (st, .response 500 .nftGenFailed) := by
    rw [verify_payment_valid_path cfg ext st d amt h1 h2 h3 h4, h5]
  exact ⟨hmain, fun hq => by rw [hmain]; exact hq⟩

/-- C7 witness: the example request against an empty datastore with failing
artifact generation: 500 generation-failed, and the datastore stays empty. -/
theorem c7_witness :
    verify_payment exCfg exExtNoGen emptyDb (some exReq) =
      (emptyDb, .response 500 .nftGenFailed) ∧
    (txRecordsFor emptyDb (exReq.transactionSignature.getD "") = [] →
      txRecordsFor (verify_payment exCfg exExtNoGen emptyDb (some exReq)).1
        (exReq.transactionSignature.getD "") = []) :=
  c7_generation_failure_no_persistence exCfg exExtNoGen emptyDb exReq 5
    (by decide) (by decide) rfl (by decide) rfl

/-- C8 counterexample: a request whose amount is the number -5 — present,
truthy and parseable, but not a positive number — is not rejected with a 400
InvalidRequest: the route proceeds through verification, artifact issuance
and persistence (the datastore changes) and ends in the email-block crash. -/
theorem c8_counterexample :
    (verify_payment exCfg exExt1 emptyDb (some exReqNeg)).2 = .crash "NameError" ∧
    (verify_payment exCfg exExt1 emptyDb (some exReqNeg)).1 ≠ emptyDb := by
  decide

/-- C8 (amended): for every request in which a required field is missing or
falsy, or in which the amount is a string that float() cannot parse, the
route rejects with HTTP 400 (missing-parameters or invalid-amount-format)
and the datastore is unchanged; the conclusion holds for every external
outcome, so neither verification nor any side effect is consulted. Amount
positivity is not checked: a non-positive numeric amount passes validation
(see the counterexample). -/
theorem c8_validation_rejects_before_side_effects
    (cfg : Config) (ext : Externals) (st : DbState) (d : RequestData)
    (h : truthyReq d = false ∨ parseAmount d.amount = none) :
    (verify_payment cfg ext st (some d)).1 = st ∧
    ((verify_payment cfg ext st (some d)).2 = .response 400 .missingParams ∨
      (verify_payment cfg ext st (some d)).2 = .response 400 .invalidAmountFormat) := by
  rcases h with h | h
  · refine ⟨by simp [verify_payment, h], Or.inl (by simp [verify_payment, h])⟩
  · cases htr : truthyReq d with
    | false =>
      refine ⟨by simp [verify_payment, htr], Or.inl (by simp [verify_payment, htr])⟩
    | true =>
      refine ⟨by simp [verify_payment, htr, h], Or.inr (by simp [verify_payment, htr, h])⟩

/-- C8 witness: the example request without its signature field is rejected
with 400 missing-parameters and the datastore is unchanged. -/
theorem c8_witness :
    (verify_payment exCfg exExt1 emptyDb (some exReqMissing)).1 = emptyDb ∧
    ((verify_payment exCfg exExt1 emptyDb (some exReqMissing)).2 =
        .response 400 .missingParams ∨
      (verify_payment exCfg exExt1 emptyDb (some exReqMissing)).2 =
        .response 400 .invalidAmountFormat) :=
  c8_validation_rejects_before_side_effects exCfg exExt1 emptyDb exReqMissing
    (Or.inl (by decide))

end NftApp
